import Mathlib

/-
Verification of the AuraSync backend core logic: the weighted sampler,
the attribute fallback providers and the skin color synthesizer from
fallback_models.py, and the recommendation composer and product filter
from main.py.  Randomness is embedded explicitly: each random draw of
the Python code becomes an argument of the Lean function (a rational
for random.random(), a natural for the source underlying
random.randint, and a caller-supplied reordering for random.shuffle).
-/

namespace AuraSync

/- ===== String helpers: the Python substring test needle in hay ===== -/

/-- Tests whether the first list starts with the second one. -/
def startsWithSeq : List Char → List Char → Bool
  | _, [] => true
  | [], _ :: _ => false
  | a :: as, b :: bs => a == b && startsWithSeq as bs

/-- Substring containment of needle in hay, scanning every suffix. -/
def containsSub (needle : List Char) : List Char → Bool
  | [] => startsWithSeq [] needle
  | a :: t => startsWithSeq (a :: t) needle || containsSub needle t

/-- Python needle in hay on strings. -/
def inStr (needle hay : String) : Bool := containsSub needle.data hay.data

/- ===== random.choices internals (CPython) ===== -/

/-- Fuel-bounded binary search loop of Python bisect.bisect_right; the
fuel only bounds the iteration count, and since hi - lo strictly
decreases at each step, a fuel of hi - lo always suffices to reach the
loop exit lo = hi. -/
def bisectGo (a : List ℚ) (x : ℚ) : Nat → Nat → Nat → Nat
  | 0, lo, _ => lo
  | fuel + 1, lo, hi =>
    if lo < hi then
      let mid := (lo + hi) / 2
      if x < a.getD mid 0 then bisectGo a x fuel lo mid
      else bisectGo a x fuel (mid + 1) hi
    else lo

/-- Python bisect.bisect_right a x lo hi. -/
def bisect_right (a : List ℚ) (x : ℚ) (lo hi : Nat) : Nat :=
  bisectGo a x (hi - lo) lo hi

/-- Running partial sums, as itertools.accumulate used by
random.choices. -/
def runningSums (acc : ℚ) : List ℚ → List ℚ
  | [] => []
  | w :: ws => (acc + w) :: runningSums (acc + w) ws

/-- CPython random.choices population weights with k = 1 and the unit
draw v of random.random() explicit: it accumulates the weights, raises
ValueError (none here) when the final cumulative total is not
positive, and otherwise picks the label at index
bisect_right cum (v * total) 0 (n - 1). -/
def random_choices (population : List String) (weights : List ℚ) (v : ℚ) :
    Option String :=
  if (runningSums 0 weights).getLastD 0 ≤ 0 then none
  else some (population.getD
    (bisect_right (runningSums 0 weights)
      (v * (runningSums 0 weights).getLastD 0) 0 (population.length - 1)) "")

/-- weighted_random_selection from fallback_models.py, with the uniform
draw v of random.random() passed explicitly.  The failure cases of the
Python code (unpacking zip of an empty list, dividing by a zero weight
total, and the ValueError inside random.choices) are modelled as none;
otherwise it divides each weight by the total and delegates to
random_choices, returning the chosen label together with the
normalized weights as the source does. -/
def weighted_random_selection (tbl : List (String × ℚ)) (v : ℚ) :
    Option (String × List ℚ) :=
  if tbl = [] then none
  else if (tbl.map Prod.snd).sum = 0 then none
  else
    match random_choices (tbl.map Prod.fst)
        ((tbl.map Prod.snd).map (fun w => w / (tbl.map Prod.snd).sum)) v with
    | none => none
    | some lbl => some (lbl, (tbl.map Prod.snd).map (fun w => w / (tbl.map Prod.snd).sum))

/-- random.uniform a b, with the unit draw u of random.random()
explicit. -/
def uniform (a b u : ℚ) : ℚ := a + (b - a) * u

/-- random.randint a b: the value a + (u mod (b - a + 1)) of the
inclusive range, where u is the outcome of the underlying uniform
source. -/
def randint (a b : ℤ) (u : ℕ) : ℤ := a + (u : ℤ) % (b - a + 1)

/- ===== Fixed weighted tables of fallback_models.py ===== -/

/-- Face shape table of fallback_face_shape_analysis. -/
def face_shapes : List (String × ℚ) :=
  [("Oval", 0.25), ("Round", 0.20), ("Square", 0.15), ("Heart", 0.15),
   ("Diamond", 0.10), ("Rectangle", 0.10), ("Triangle", 0.05)]

/-- Male body shape table of fallback_body_shape_analysis. -/
def male_body_shapes : List (String × ℚ) :=
  [("Trapezoid", 0.3), ("Rectangle", 0.25), ("Triangle", 0.2), ("Oval", 0.15),
   ("Inverted Triangle", 0.1)]

/-- Female body shape table of fallback_body_shape_analysis. -/
def female_body_shapes : List (String × ℚ) :=
  [("Hourglass", 0.25), ("Rectangle", 0.25), ("Pear", 0.20), ("Apple", 0.15),
   ("Inverted Triangle", 0.15)]

/-- Fitzpatrick tone table of fallback_skin_tone_analysis. -/
def skin_tones : List (String × ℚ) :=
  [("Type I - Very fair", 0.1), ("Type II - Fair", 0.2), ("Type III - Medium", 0.3),
   ("Type IV - Olive", 0.2), ("Type V - Brown", 0.15),
   ("Type VI - Dark brown to black", 0.05)]

/-- Undertone table of fallback_skin_tone_analysis. -/
def undertones : List (String × ℚ) :=
  [("Cool", 0.3), ("Neutral", 0.4), ("Warm", 0.3)]

/- ===== Skin color synthesizer ===== -/

/-- An RGB triple as returned by generate_realistic_skin_rgb. -/
structure RGBColor where
  r : ℤ
  g : ℤ
  b : ℤ
  deriving DecidableEq

/-- The base_ranges dict of generate_realistic_skin_rgb; a missing key
raises KeyError in Python, modelled as none. -/
def base_ranges (skin_tone : String) : Option ((ℤ × ℤ) × (ℤ × ℤ) × (ℤ × ℤ)) :=
  if skin_tone = "Type I - Very fair" then some ((240, 255), (220, 240), (200, 225))
  else if skin_tone = "Type II - Fair" then some ((225, 245), (200, 220), (175, 200))
  else if skin_tone = "Type III - Medium" then some ((200, 225), (170, 200), (140, 170))
  else if skin_tone = "Type IV - Olive" then some ((180, 200), (150, 180), (120, 150))
  else if skin_tone = "Type V - Brown" then some ((150, 180), (120, 150), (90, 120))
  else if skin_tone = "Type VI - Dark brown to black" then some ((90, 120), (70, 90), (60, 80))
  else none

/-- The undertone_adjustments dict of generate_realistic_skin_rgb. -/
def undertone_adjustments (undertone : String) : Option (ℤ × ℤ × ℤ) :=
  if undertone = "Cool" then some (-10, 0, 10)
  else if undertone = "Neutral" then some (0, 0, 0)
  else if undertone = "Warm" then some (10, 5, -10)
  else none

/-- The 6 keys of base_ranges. -/
def toneLabels : List String :=
  ["Type I - Very fair", "Type II - Fair", "Type III - Medium", "Type IV - Olive",
   "Type V - Brown", "Type VI - Dark brown to black"]

/-- The 3 keys of undertone_adjustments. -/
def undertoneLabels : List String := ["Cool", "Neutral", "Warm"]

/-- generate_realistic_skin_rgb from fallback_models.py: per-channel
randint draw from the tone range, undertone adjustment added, clamped
into 0..255 by max 0 (min 255 -); ur, ug, ub are the outcomes of the
underlying random source for the three randint calls. -/
def generate_realistic_skin_rgb (skin_tone undertone : String) (ur ug ub : ℕ) :
    Option RGBColor :=
  match base_ranges skin_tone, undertone_adjustments undertone with
  | some ((rmin, rmax), (gmin, gmax), (bmin, bmax)), some (radj, gadj, badj) =>
    some ⟨max 0 (min 255 (randint rmin rmax ur + radj)),
          max 0 (min 255 (randint gmin gmax ug + gadj)),
          max 0 (min 255 (randint bmin bmax ub + badj))⟩
  | _, _ => none

/- ===== Attribute fallback providers ===== -/

/-- Random draws consumed by fallback_face_shape_analysis, in call
order: weighted selection, confidence, then the six feature draws. -/
structure FaceDraws where
  sel : ℚ
  conf : ℚ
  fw : ℚ
  fh : ℚ
  jw : ℚ
  forw : ℚ
  chin : ℚ
  cbw : ℚ
  deriving DecidableEq

/-- Result record of fallback_face_shape_analysis, fields in source
order: face_shape, confidence, the six feature measurements, and the
using_fallback flag. -/
structure FaceResult where
  face_shape : String
  confidence : ℚ
  face_width : ℚ
  face_height : ℚ
  jaw_width : ℚ
  forehead_width : ℚ
  chin_prominence : ℚ
  cheekbone_width : ℚ
  using_fallback : Bool
  deriving DecidableEq

/-- fallback_face_shape_analysis from fallback_models.py (the ignored
image_data argument is dropped). -/
def fallback_face_shape_analysis (d : FaceDraws) : Option FaceResult :=
  match weighted_random_selection face_shapes d.sel with
  | none => none
  | some (selected_shape, _) =>
    some ⟨selected_shape, uniform 0.75 0.95 d.conf,
      uniform 120 160 d.fw, uniform 180 220 d.fh, uniform 110 150 d.jw,
      uniform 115 155 d.forw, uniform 0.1 0.5 d.chin, uniform 120 165 d.cbw, true⟩

/-- Random draws consumed by fallback_body_shape_analysis, in call
order: weighted selection, confidence, then the five measurement
draws. -/
structure BodyDraws where
  sel : ℚ
  conf : ℚ
  swr : ℚ
  whr : ℚ
  ihr : ℚ
  sw : ℚ
  hw : ℚ
  deriving DecidableEq

/-- Result record of fallback_body_shape_analysis, fields in source
order. -/
structure BodyResult where
  body_type : String
  confidence : ℚ
  shoulder_to_waist_ratio : ℚ
  waist_to_hip_ratio : ℚ
  inseam_to_height_ratio : ℚ
  shoulder_width : ℚ
  hip_width : ℚ
  using_fallback : Bool
  deriving DecidableEq

/-- The gender dispatch of fallback_body_shape_analysis:
gender.lower() in a list of the two male aliases selects the male
table, anything else the female table. -/
def body_shapes_table (gender : String) : List (String × ℚ) :=
  if gender.toLower ∈ (["male", "m"] : List String) then male_body_shapes
  else female_body_shapes

/-- fallback_body_shape_analysis from fallback_models.py (the ignored
image_data argument is dropped). -/
def fallback_body_shape_analysis (gender : String) (d : BodyDraws) : Option BodyResult :=
  match weighted_random_selection (body_shapes_table gender) d.sel with
  | none => none
  | some (selected_shape, _) =>
    some ⟨selected_shape, uniform 0.8 0.95 d.conf,
      uniform 0.8 1.4 d.swr, uniform 0.7 1.1 d.whr, uniform 0.4 0.5 d.ihr,
      uniform 36 50 d.sw, uniform 34 48 d.hw, true⟩

/-- Random draws consumed by fallback_skin_tone_analysis, in call
order: tone selection, undertone selection, confidence, then the three
randint sources of generate_realistic_skin_rgb. -/
structure SkinDraws where
  selTone : ℚ
  selUnder : ℚ
  conf : ℚ
  ur : ℕ
  ug : ℕ
  ub : ℕ
  deriving DecidableEq

/-- Result record of fallback_skin_tone_analysis, fields in source
order. -/
structure SkinResult where
  skin_tone : String
  undertone : String
  confidence : ℚ
  rgb_value : RGBColor
  using_fallback : Bool
  deriving DecidableEq

/-- fallback_skin_tone_analysis from fallback_models.py (the ignored
image_data argument is dropped). -/
def fallback_skin_tone_analysis (d : SkinDraws) : Option SkinResult :=
  match weighted_random_selection skin_tones d.selTone with
  | none => none
  | some (selected_tone, _) =>
    match weighted_random_selection undertones d.selUnder with
    | none => none
    | some (selected_undertone, _) =>
      match generate_realistic_skin_rgb selected_tone selected_undertone d.ur d.ug d.ub with
      | none => none
      | some rgb =>
        some ⟨selected_tone, selected_undertone, uniform 0.75 0.95 d.conf, rgb, true⟩

/- ===== Recommendation composer (main.py) ===== -/

/-- The PERSONALITY_STYLES dict of main.py. -/
def PERSONALITY_STYLES (k : String) : Option String :=
  if k = "ISTJ" then some "Classic and traditional styles with high-quality fabrics and timeless designs."
  else if k = "ISFJ" then some "Comfortable, practical clothing with soft fabrics and subtle patterns."
  else if k = "INFJ" then some "Minimalist designs with artistic touches and unique accessories."
  else if k = "INTJ" then some "Sophisticated, sleek styles with clean lines and intellectual appeal."
  else if k = "ISTP" then some "Functional, durable clothes with a casual edge and practical features."
  else if k = "ISFP" then some "Artistic, bohemian looks with unique textures and experimental combinations."
  else if k = "INFP" then some "Romantic, whimsical styles with soft layers and personal meaning."
  else if k = "INTP" then some "Unconventional, comfortable clothing with intellectual or nerdy references."
  else if k = "ESTP" then some "Bold, trendy pieces that make a statement and show confidence."
  else if k = "ESFP" then some "Fun, vibrant outfits with attention-grabbing colors and playful accessories."
  else if k = "ENFP" then some "Eclectic, creative ensembles with mixed patterns and expressive elements."
  else if k = "ENTP" then some "Smart-casual looks with unexpected twists and conversation starters."
  else if k = "ESTJ" then some "Professional, structured outfits with perfect coordination and attention to detail."
  else if k = "ESFJ" then some "Polished, put-together ensembles that follow current trends appropriately."
  else if k = "ENFJ" then some "Warm, approachable styles with harmonious colors and elegant touches."
  else if k = "ENTJ" then some "Power dressing with sharp tailoring and status-signaling elements."
  else none

/-- The body_recs dict of generate_recommendation, keyed by the
lowercased body type. -/
def body_recs (k : String) : Option String :=
  if k = "hourglass" then some "Embrace fitted styles that highlight your balanced proportions. Wrap dresses and belted jackets work especially well for your figure."
  else if k = "rectangle" then some "Create curves with peplum tops, layered outfits, and statement belts to define your waist."
  else if k = "triangle" then some "Balance your proportions with structured tops, wider necklines, and A-line skirts or dresses."
  else if k = "inverted triangle" then some "Balance your broader shoulders with full skirts, wide-leg pants, and details at the hip area."
  else if k = "oval" then some "Define your waistline with empire waists and vertical patterns. V-necks and A-line silhouettes are particularly flattering."
  else none

/-- The generic default of the body_recs.get call. -/
def genericBodyFragment : String :=
  "Choose styles that enhance your unique body shape."

/-- The body fragment of generate_recommendation. -/
def bodyFragment (body_type : String) : String :=
  (body_recs body_type.toLower).getD genericBodyFragment

/-- The face_recs dict of generate_recommendation, keyed by the
lowercased face shape. -/
def face_recs (k : String) : Option String :=
  if k = "oval" then some "You can wear most styles. Experiment with different necklines and accessories."
  else if k = "round" then some "Create length with V-necks, long earrings, and hairstyles with height."
  else if k = "square" then some "Soften your angles with round necklines and curved accessories."
  else if k = "heart" then some "Balance your wider forehead with wider bottoms and choker necklaces."
  else if k = "diamond" then some "Highlight your cheekbones with earrings and avoid oversized eyewear."
  else if k = "rectangle" then some "Soften your jawline with round necklines and curved accessories."
  else none

/-- The generic default of the face_recs.get call. -/
def genericFaceFragment : String :=
  "Select necklines and accessories that complement your face shape."

/-- The face fragment of generate_recommendation. -/
def faceFragment (face_shape : String) : String :=
  (face_recs face_shape.toLower).getD genericFaceFragment

/-- The fair skin fragment of generate_recommendation. -/
def fairSkinFragment : String :=
  "With your fair skin, jewel tones like emerald, sapphire, and ruby will create stunning contrast. Soft pastels also complement your complexion beautifully."

/-- The medium skin fragment of generate_recommendation. -/
def mediumSkinFragment : String :=
  "Your medium skin tone works well with both warm and cool colors. Rich hues like olive green, teal, and coral pink are particularly flattering."

/-- The olive skin fragment of generate_recommendation. -/
def oliveSkinFragment : String :=
  "Your olive skin tone is complemented by earthy colors like terracotta, mustard, and olive green, as well as vibrant jewel tones."

/-- The darkest skin fragment of generate_recommendation, the default
branch. -/
def darkSkinFragment : String :=
  "Your deep skin tone is enhanced by bright, vibrant colors and rich jewel tones. White and cream create beautiful contrast."

/-- The skin fragment of generate_recommendation: substring tests on
the raw skin tone string in source order. -/
def skinFragment (skin_tone : String) : String :=
  if inStr "I" skin_tone || inStr "II" skin_tone then fairSkinFragment
  else if inStr "III" skin_tone then mediumSkinFragment
  else if inStr "IV" skin_tone then oliveSkinFragment
  else darkSkinFragment

/-- The personality fragment of generate_recommendation: present only
when mbti is nonempty and its uppercase form is a PERSONALITY_STYLES
key. -/
def personalityPart (mbti : String) : List String :=
  if mbti ≠ "" then
    match PERSONALITY_STYLES mbti.toUpper with
    | some sty => ["Your " ++ mbti.toUpper ++ " personality suggests: " ++ sty]
    | none => []
  else []

/-- The parts list built by generate_recommendation, in source append
order: body, face, skin, personality, each present only when its input
is nonempty. -/
def recParts (body_type face_shape mbti skin_tone : String) : List String :=
  (if body_type ≠ "" then [bodyFragment body_type] else []) ++
  (if face_shape ≠ "" then [faceFragment face_shape] else []) ++
  (if skin_tone ≠ "" then [skinFragment skin_tone] else []) ++
  personalityPart mbti

/-- The fixed catch-all message of generate_recommendation. -/
def genericMessage : String :=
  "Based on your unique characteristics, we recommend exploring styles that express your individuality while enhancing your natural features. Consider consulting with a personal stylist for more tailored advice."

/-- generate_recommendation from main.py; the gender argument is
accepted and unused, as in the source. -/
def generate_recommendation (gender body_type face_shape mbti skin_tone : String) : String :=
  let parts := recParts body_type face_shape mbti skin_tone
  if parts = [] then genericMessage else String.intercalate " " parts

/- ===== Product filter (main.py) ===== -/

/-- A catalog row: an opaque record of string fields, as the csv
DictReader rows of main.py. -/
abbrev Product : Type := List (String × String)

/-- Python dict.get k default on a product record. -/
def dictGet (p : Product) (k d : String) : String :=
  match p.find? (fun kv => kv.1 == k) with
  | some kv => kv.2
  | none => d

/-- filter_products from main.py, with the module-level PRODUCTS
catalog passed explicitly and the in-place random.shuffle modelled as
the caller-supplied reordering the random source produced. -/
def filter_products (products : List Product) (gender body_type skin_tone mbti : String)
    (shuffle : List Product → List Product) : List Product :=
  let filtered0 := products
  let filtered1 :=
    if gender = "" then filtered0
    else filtered0.filter (fun p => (dictGet p "gender" "").toLower == gender.toLower)
  let filtered2 := if filtered1.length < 3 then products else filtered1
  shuffle filtered2

/- ===== Helper lemmas ===== -/

theorem bisectGo_le (a : List ℚ) (x : ℚ) :
    ∀ (fuel lo hi : Nat), lo ≤ hi → bisectGo a x fuel lo hi ≤ hi := by
  intro fuel
  induction fuel with
  | zero => intro lo hi h; simpa [bisectGo] using h
  | succ n ih =>
    intro lo hi h
    simp only [bisectGo]
    split_ifs with h1 h2
    · exact le_trans (ih lo ((lo + hi) / 2) (by omega)) (by omega)
    · exact ih ((lo + hi) / 2 + 1) hi (by omega)
    · exact h

theorem bisect_right_le (a : List ℚ) (x : ℚ) (lo hi : Nat) (h : lo ≤ hi) :
    bisect_right a x lo hi ≤ hi :=
  bisectGo_le a x (hi - lo) lo hi h

theorem getD_mem_of_lt {α : Type} {l : List α} {n : ℕ} {d : α} (h : n < l.length) :
    l.getD n d ∈ l := by
  induction l generalizing n with
  | nil => simp at h
  | cons a t ih =>
    cases n with
    | zero => simp
    | succ m =>
      simp only [List.getD_cons_succ]
      exact List.mem_cons_of_mem _ (ih (by simpa using h))

theorem sum_map_div (l : List ℚ) (t : ℚ) :
    (l.map (fun w => w / t)).sum = l.sum / t := by
  induction l with
  | nil => simp
  | cons a l ih => simp [ih, add_div]

theorem runningSums_getLastD (acc d : ℚ) (l : List ℚ) (h : l ≠ []) :
    (runningSums acc l).getLastD d = acc + l.sum := by
  induction l generalizing acc d with
  | nil => exact absurd rfl h
  | cons w ws ih =>
    cases ws with
    | nil => simp [runningSums]
    | cons y ys =>
      rw [show runningSums acc (w :: y :: ys) =
        (acc + w) :: runningSums (acc + w) (y :: ys) from rfl]
      rw [List.getLastD_cons, ih (acc + w) (acc + w) (by simp)]
      simp [add_assoc]

theorem rc_none_iff (pop : List String) (ws : List ℚ) (v : ℚ) :
    random_choices pop ws v = none ↔ (runningSums 0 ws).getLastD 0 ≤ 0 := by
  rw [random_choices]
  split_ifs with h
  · exact iff_of_true rfl h
  · exact iff_of_false (by simp) h

theorem rc_label_mem {pop : List String} {ws : List ℚ} {v : ℚ} {lbl : String}
    (hne : pop ≠ []) (h : random_choices pop ws v = some lbl) : lbl ∈ pop := by
  by_cases htot : (runningSums 0 ws).getLastD 0 ≤ 0
  · rw [random_choices, if_pos htot] at h
    exact Option.noConfusion h
  · rw [random_choices, if_neg htot] at h
    simp only [Option.some.injEq] at h
    rw [← h]
    have hlen : pop.length ≠ 0 := by simpa [List.length_eq_zero] using hne
    have hidx := bisect_right_le (runningSums 0 ws)
      (v * (runningSums 0 ws).getLastD 0) 0 (pop.length - 1) (Nat.zero_le _)
    exact getD_mem_of_lt (by omega)

/-- The sampler fails exactly on the empty table or a zero weight
total: with a nonzero total the normalized weights sum to exactly 1,
so the non-positive total check inside random.choices never fires. -/
theorem wrs_none_iff (tbl : List (String × ℚ)) (v : ℚ) :
    weighted_random_selection tbl v = none ↔
      tbl = [] ∨ (tbl.map Prod.snd).sum = 0 := by
  by_cases h1 : tbl = []
  · rw [weighted_random_selection, if_pos h1]
    simp [h1]
  · by_cases h2 : (tbl.map Prod.snd).sum = 0
    · rw [weighted_random_selection, if_neg h1, if_pos h2]
      simp [h1, h2]
    · have hne : (tbl.map Prod.snd).map (fun w => w / (tbl.map Prod.snd).sum) ≠ [] := by
        simp [h1]
      have hlast : (runningSums 0 ((tbl.map Prod.snd).map
          (fun w => w / (tbl.map Prod.snd).sum))).getLastD 0 = 1 := by
        rw [runningSums_getLastD _ _ _ hne, sum_map_div, div_self h2, zero_add]
      rw [weighted_random_selection, if_neg h1, if_neg h2]
      rcases hrc : random_choices (tbl.map Prod.fst)
          ((tbl.map Prod.snd).map (fun w => w / (tbl.map Prod.snd).sum)) v with _ | lbl
      · exfalso
        rw [rc_none_iff, hlast] at hrc
        norm_num at hrc
      · simp [h1, h2]

/-- Whenever the sampler returns a pair, its label is a label of the
table: the bisect index is bounded by n - 1. -/
theorem wrs_label_mem {tbl : List (String × ℚ)} {v : ℚ} {lbl : String} {nw : List ℚ}
    (h : weighted_random_selection tbl v = some (lbl, nw)) :
    lbl ∈ tbl.map Prod.fst := by
  by_cases h1 : tbl = []
  · rw [weighted_random_selection, if_pos h1] at h
    exact Option.noConfusion h
  · by_cases h2 : (tbl.map Prod.snd).sum = 0
    · rw [weighted_random_selection, if_neg h1, if_pos h2] at h
      exact Option.noConfusion h
    · rw [weighted_random_selection, if_neg h1, if_neg h2] at h
      revert h
      rcases hrc : random_choices (tbl.map Prod.fst)
          ((tbl.map Prod.snd).map (fun w => w / (tbl.map Prod.snd).sum)) v with _ | lbl2
      · intro h
        exact Option.noConfusion h
      · intro h
        simp only [Option.some.injEq, Prod.mk.injEq] at h
        obtain ⟨hlbl, -⟩ := h
        rw [← hlbl]
        exact rc_label_mem (by simpa using h1) hrc

theorem uniform_bounds {a b u : ℚ} (hab : a ≤ b) (h0 : 0 ≤ u) (h1 : u < 1) :
    a ≤ uniform a b u ∧ uniform a b u ≤ b := by
  unfold uniform
  constructor
  · nlinarith
  · nlinarith

theorem clamp_lb (x : ℤ) : 0 ≤ max 0 (min 255 x) := le_max_left 0 _

theorem clamp_ub (x : ℤ) : max 0 (min 255 x) ≤ 255 :=
  max_le (by norm_num) (min_le_left _ _)

theorem base_ranges_none_iff (tone : String) :
    base_ranges tone = none ↔ tone ∉ toneLabels := by
  unfold base_ranges toneLabels
  split_ifs with h1 h2 h3 h4 h5 h6 <;> simp_all

theorem undertone_adjustments_none_iff (ut : String) :
    undertone_adjustments ut = none ↔ ut ∉ undertoneLabels := by
  unfold undertone_adjustments undertoneLabels
  split_ifs with h1 h2 h3 <;> simp_all

/- ===== Claim theorems ===== -/

/-- C1 counterexample: a nonempty table with weight sum -2 (which is
non-positive, so the claim says the sampler must fail) on which
weighted_random_selection nevertheless succeeds: dividing by the
negative total flips the signs, random.choices receives valid
normalized weights, and a label is returned. -/
theorem C1_counterexample :
    (([("a", (-1 : ℚ)), ("b", -1)] : List (String × ℚ)) ≠ []) ∧
    ((([("a", (-1 : ℚ)), ("b", -1)] : List (String × ℚ)).map Prod.snd).sum ≤ 0) ∧
    (weighted_random_selection [("a", (-1 : ℚ)), ("b", -1)] 0).isSome = true := by
  refine ⟨by decide, ?_, ?_⟩ <;> with_unfolding_all decide

/-- C1 (amended): for every table and draw, weighted_random_selection
fails exactly when the table is empty or the weight sum is exactly
zero; on every nonempty table with nonzero (in particular positive)
weight sum it does not fail. -/
theorem C1_sampler_fails_iff_zero_total (tbl : List (String × ℚ)) (v : ℚ) :
    weighted_random_selection tbl v = none ↔
      tbl = [] ∨ (tbl.map Prod.snd).sum = 0 :=
  wrs_none_iff tbl v

/-- C2: the skin fragment of generate_recommendation is chosen by
substring tests on the raw skin-tone string in this priority order:
fair when it contains I or II, else medium when it contains III, else
olive when it contains IV, else the darkest fragment; in particular a
label containing both I and III selects the fair branch. -/
theorem C2_skin_fragment_priority (s : String) (h : s ≠ "") :
    ((inStr "I" s = true ∨ inStr "II" s = true) → skinFragment s = fairSkinFragment) ∧
    (inStr "I" s = false → inStr "II" s = false → inStr "III" s = true →
      skinFragment s = mediumSkinFragment) ∧
    (inStr "I" s = false → inStr "II" s = false → inStr "III" s = false →
      inStr "IV" s = true → skinFragment s = oliveSkinFragment) ∧
    (inStr "I" s = false → inStr "II" s = false → inStr "III" s = false →
      inStr "IV" s = false → skinFragment s = darkSkinFragment) := by
  unfold skinFragment
  refine ⟨?_, ?_, ?_, ?_⟩
  · rintro (h1 | h1) <;> simp [h1]
  · intro h1 h2 h3; simp [h1, h2, h3]
  · intro h1 h2 h3 h4; simp [h1, h2, h3, h4]
  · intro h1 h2 h3 h4; simp [h1, h2, h3, h4]

/-- C2 witness at the label Type III - Medium, which contains both I
and III and therefore selects the fair branch. -/
theorem C2_witness : skinFragment "Type III - Medium" = fairSkinFragment :=
  (C2_skin_fragment_priority "Type III - Medium" (by decide)).1 (Or.inl (by decide))

/-- C3: the body fallback provider never fails for any gender string
and any draws, and it selects the 5-category male table exactly when
the lowercased gender is one of the male aliases, the 5-category
female table in every other case. -/
theorem C3_body_provider_never_fails (gender : String) (d : BodyDraws) :
    (fallback_body_shape_analysis gender d).isSome = true ∧
    (gender.toLower ∈ (["male", "m"] : List String) →
      body_shapes_table gender = male_body_shapes) ∧
    (gender.toLower ∉ (["male", "m"] : List String) →
      body_shapes_table gender = female_body_shapes) := by
  refine ⟨?_, ?_, ?_⟩
  · rcases hw : weighted_random_selection (body_shapes_table gender) d.sel with _ | p
    · exfalso
      rw [wrs_none_iff] at hw
      unfold body_shapes_table at hw
      split_ifs at hw <;> rcases hw with h | h <;>
        exact absurd h (by with_unfolding_all decide)
    · obtain ⟨shape, nw⟩ := p
      simp [fallback_body_shape_analysis, hw]
  · intro hg; simp [body_shapes_table, hg]
  · intro hg; simp [body_shapes_table, hg]

/-- C3 witness: at gender MALE (matching case-insensitively) the
provider succeeds and uses the male table. -/
theorem C3_witness :
    (fallback_body_shape_analysis "MALE" ⟨0, 0, 0, 0, 0, 0, 0⟩).isSome = true ∧
    body_shapes_table "MALE" = male_body_shapes :=
  ⟨(C3_body_provider_never_fails "MALE" ⟨0, 0, 0, 0, 0, 0, 0⟩).1,
    (C3_body_provider_never_fails "MALE" ⟨0, 0, 0, 0, 0, 0, 0⟩).2.1
      (by with_unfolding_all decide)⟩

/-- C4: with a provided (nonempty) gender, the product filter returns,
up to the random reordering, exactly the case-insensitive gender
matches when at least 3 exist and the full catalog otherwise; hence it
never returns fewer than 3 items unless the catalog itself has fewer
than 3. -/
theorem C4_product_filter_floor (products : List Product)
    (gender body_type skin_tone mbti : String)
    (shuffle : List Product → List Product) (hg : gender ≠ "")
    (hs : ∀ l, (shuffle l).Perm l) :
    (3 ≤ (products.filter
        (fun p => (dictGet p "gender" "").toLower == gender.toLower)).length →
      (filter_products products gender body_type skin_tone mbti shuffle).Perm
        (products.filter (fun p => (dictGet p "gender" "").toLower == gender.toLower))) ∧
    ((products.filter
        (fun p => (dictGet p "gender" "").toLower == gender.toLower)).length < 3 →
      (filter_products products gender body_type skin_tone mbti shuffle).Perm products) ∧
    (3 ≤ products.length →
      3 ≤ (filter_products products gender body_type skin_tone mbti shuffle).length) := by
  refine ⟨?_, ?_, ?_⟩
  · intro h3
    have heq : filter_products products gender body_type skin_tone mbti shuffle =
        shuffle (products.filter
          (fun p => (dictGet p "gender" "").toLower == gender.toLower)) := by
      simp only [filter_products, if_neg hg, if_neg (Nat.not_lt.mpr h3)]
    rw [heq]
    exact hs _
  · intro hlt
    have heq : filter_products products gender body_type skin_tone mbti shuffle =
        shuffle products := by
      simp only [filter_products, if_neg hg, if_pos hlt]
    rw [heq]
    exact hs _
  · intro hcat
    by_cases hlt : (products.filter
        (fun p => (dictGet p "gender" "").toLower == gender.toLower)).length < 3
    · have heq : filter_products products gender body_type skin_tone mbti shuffle =
          shuffle products := by
        simp only [filter_products, if_neg hg, if_pos hlt]
      rw [heq, (hs products).length_eq]
      exact hcat
    · have heq : filter_products products gender body_type skin_tone mbti shuffle =
          shuffle (products.filter
            (fun p => (dictGet p "gender" "").toLower == gender.toLower)) := by
        simp only [filter_products, if_neg hg, if_neg hlt]
      rw [heq, (hs _).length_eq]
      omega

/-- C4 witness: a 3-item catalog all of whose rows match the gender
MALE case-insensitively yields at least 3 items. -/
theorem C4_witness :
    3 ≤ (filter_products [[("gender", "male")], [("gender", "Male")], [("gender", "MALE")]]
      "MALE" "" "" "" id).length :=
  (C4_product_filter_floor [[("gender", "male")], [("gender", "Male")], [("gender", "MALE")]]
    "MALE" "" "" "" id (by decide) (fun l => List.Perm.refl l)).2.2 (by decide)

/-- C5: for each of the 6 tone labels, each of the 3 undertone labels
and every outcome of the per-channel draws, the synthesized color
exists and all three channels lie in 0..255, because the drawn value
plus adjustment is clamped. -/
theorem C5_rgb_channels_clamped (tone ut : String) (ur ug ub : ℕ)
    (ht : tone ∈ toneLabels) (hu : ut ∈ undertoneLabels) :
    ∃ c : RGBColor, generate_realistic_skin_rgb tone ut ur ug ub = some c ∧
      0 ≤ c.r ∧ c.r ≤ 255 ∧ 0 ≤ c.g ∧ c.g ≤ 255 ∧ 0 ≤ c.b ∧ c.b ≤ 255 := by
  simp only [toneLabels, List.mem_cons, List.not_mem_nil, or_false] at ht
  simp only [undertoneLabels, List.mem_cons, List.not_mem_nil, or_false] at hu
  rcases ht with rfl | rfl | rfl | rfl | rfl | rfl <;>
    rcases hu with rfl | rfl | rfl <;>
    exact ⟨_, rfl, clamp_lb _, clamp_ub _, clamp_lb _, clamp_ub _, clamp_lb _, clamp_ub _⟩

/-- C5 witness at the first tone and undertone with zero draws. -/
theorem C5_witness :
    ∃ c : RGBColor, generate_realistic_skin_rgb "Type I - Very fair" "Cool" 0 0 0 = some c ∧
      0 ≤ c.r ∧ c.r ≤ 255 ∧ 0 ≤ c.g ∧ c.g ≤ 255 ∧ 0 ≤ c.b ∧ c.b ≤ 255 :=
  C5_rgb_channels_clamped "Type I - Very fair" "Cool" 0 0 0 (by decide) (by decide)

/-- C6: every estimate produced by one of the three fallback providers
has its confidence inside the fixed per-type range, for every valid
unit draw: face in 0.75..0.95, body in 0.8..0.95, skin in
0.75..0.95. -/
theorem C6_confidence_in_range :
    (∀ (d : FaceDraws) (r : FaceResult), 0 ≤ d.conf → d.conf < 1 →
      fallback_face_shape_analysis d = some r →
      (0.75 : ℚ) ≤ r.confidence ∧ r.confidence ≤ 0.95) ∧
    (∀ (gender : String) (d : BodyDraws) (r : BodyResult), 0 ≤ d.conf → d.conf < 1 →
      fallback_body_shape_analysis gender d = some r →
      (0.8 : ℚ) ≤ r.confidence ∧ r.confidence ≤ 0.95) ∧
    (∀ (d : SkinDraws) (r : SkinResult), 0 ≤ d.conf → d.conf < 1 →
      fallback_skin_tone_analysis d = some r →
      (0.75 : ℚ) ≤ r.confidence ∧ r.confidence ≤ 0.95) := by
  refine ⟨?_, ?_, ?_⟩
  · intro d r h0 h1 hr
    rcases hw : weighted_random_selection face_shapes d.sel with _ | p
    · simp [fallback_face_shape_analysis, hw] at hr
    · obtain ⟨shape, nw⟩ := p
      simp only [fallback_face_shape_analysis, hw, Option.some.injEq] at hr
      subst hr
      exact uniform_bounds (by norm_num) h0 h1
  · intro gender d r h0 h1 hr
    rcases hw : weighted_random_selection (body_shapes_table gender) d.sel with _ | p
    · simp [fallback_body_shape_analysis, hw] at hr
    · obtain ⟨shape, nw⟩ := p
      simp only [fallback_body_shape_analysis, hw, Option.some.injEq] at hr
      subst hr
      exact uniform_bounds (by norm_num) h0 h1
  · intro d r h0 h1 hr
    rcases hw1 : weighted_random_selection skin_tones d.selTone with _ | p1
    · simp [fallback_skin_tone_analysis, hw1] at hr
    · obtain ⟨tone, nw1⟩ := p1
      rcases hw2 : weighted_random_selection undertones d.selUnder with _ | p2
      · simp [fallback_skin_tone_analysis, hw1, hw2] at hr
      · obtain ⟨ut, nw2⟩ := p2
        rcases hw3 : generate_realistic_skin_rgb tone ut d.ur d.ug d.ub with _ | rgb
        · simp [fallback_skin_tone_analysis, hw1, hw2, hw3] at hr
        · simp only [fallback_skin_tone_analysis, hw1, hw2, hw3, Option.some.injEq] at hr
          subst hr
          exact uniform_bounds (by norm_num) h0 h1

/-- C6 witness: the three providers evaluated at all-zero draws
produce confidences 0.75, 0.8 and 0.75, each inside its range. -/
theorem C6_witness :
    ((0.75 : ℚ) ≤ 0.75 ∧ (0.75 : ℚ) ≤ 0.95) ∧
    ((0.8 : ℚ) ≤ 0.8 ∧ (0.8 : ℚ) ≤ 0.95) ∧
    ((0.75 : ℚ) ≤ 0.75 ∧ (0.75 : ℚ) ≤ 0.95) :=
  ⟨C6_confidence_in_range.1 ⟨0, 0, 0, 0, 0, 0, 0, 0⟩
      ⟨"Oval", 0.75, 120, 180, 110, 115, 0.1, 120, true⟩
      (by norm_num) (by norm_num) (by with_unfolding_all decide),
   C6_confidence_in_range.2.1 "female" ⟨0, 0, 0, 0, 0, 0, 0⟩
      ⟨"Hourglass", 0.8, 0.8, 0.7, 0.4, 36, 34, true⟩
      (by norm_num) (by norm_num) (by with_unfolding_all decide),
   C6_confidence_in_range.2.2 ⟨0, 0, 0, 0, 0, 0⟩
      ⟨"Type I - Very fair", "Cool", 0.75, ⟨230, 220, 210⟩, true⟩
      (by norm_num) (by norm_num) (by with_unfolding_all decide)⟩

/-- C7: with every input empty the recommendation composer returns
exactly the fixed generic catch-all message, and whenever at least one
fragment is produced the result is the fragments joined with single
spaces in the fixed body, face, skin, personality order of
recParts. -/
theorem C7_compose_generic_or_join (gender body_type face_shape mbti skin_tone : String) :
    generate_recommendation gender "" "" "" "" = genericMessage ∧
    (recParts body_type face_shape mbti skin_tone ≠ [] →
      generate_recommendation gender body_type face_shape mbti skin_tone =
        String.intercalate " " (recParts body_type face_shape mbti skin_tone)) := by
  constructor
  · rfl
  · intro h
    simp only [generate_recommendation, if_neg h]

/-- C7 witness: a single body fragment is joined as itself. -/
theorem C7_witness :
    generate_recommendation "" "hourglass" "" "" "" =
      String.intercalate " " (recParts "hourglass" "" "" "") :=
  (C7_compose_generic_or_join "" "hourglass" "" "" "").2 (by with_unfolding_all decide)

/-- C8: on every nonempty table with positive weight total, the label
returned by the sampler is one of the labels present in the table,
whatever the outcome of the random draw. -/
theorem C8_sample_label_in_table (tbl : List (String × ℚ)) (v : ℚ)
    (lbl : String) (nw : List ℚ) (hne : tbl ≠ [])
    (hpos : 0 < (tbl.map Prod.snd).sum)
    (h : weighted_random_selection tbl v = some (lbl, nw)) :
    lbl ∈ tbl.map Prod.fst :=
  wrs_label_mem h

/-- C8 witness on a singleton table. -/
theorem C8_witness : "a" ∈ ([("a", (1 : ℚ))].map Prod.fst) :=
  C8_sample_label_in_table [("a", 1)] 0 "a" [1] (by decide)
    (by with_unfolding_all decide) (by with_unfolding_all decide)

/-- C9: the product filter ignores its body type, skin tone and mbti
arguments: two calls with the same catalog, gender and randomness
return identical sequences. -/
theorem C9_filter_ignores_attributes (products : List Product) (gender : String)
    (bt1 st1 mb1 bt2 st2 mb2 : String) (shuffle : List Product → List Product) :
    filter_products products gender bt1 st1 mb1 shuffle =
      filter_products products gender bt2 st2 mb2 shuffle := rfl

/-- C10: the color synthesizer fails exactly on inputs outside its
documented domain: it returns none iff the tone is outside the 6 fixed
tone labels or the undertone is outside the 3 fixed undertone labels;
under the precondition that both labels are in their sets, the failure
branch is unreachable. -/
theorem C10_rgb_domain_iff (tone ut : String) (ur ug ub : ℕ) :
    generate_realistic_skin_rgb tone ut ur ug ub = none ↔
      tone ∉ toneLabels ∨ ut ∉ undertoneLabels := by
  rcases hbr : base_ranges tone with _ | rng <;>
    rcases hua : undertone_adjustments ut with _ | adj
  · have ht := (base_ranges_none_iff tone).mp hbr
    simp [generate_realistic_skin_rgb, hbr, hua, ht]
  · have ht := (base_ranges_none_iff tone).mp hbr
    simp [generate_realistic_skin_rgb, hbr, hua, ht]
  · have hu := (undertone_adjustments_none_iff ut).mp hua
    simp [generate_realistic_skin_rgb, hbr, hua, hu]
  · have ht : tone ∈ toneLabels := by
      by_contra hc
      rw [← base_ranges_none_iff] at hc
      rw [hc] at hbr
      exact Option.noConfusion hbr
    have hu : ut ∈ undertoneLabels := by
      by_contra hc
      rw [← undertone_adjustments_none_iff] at hc
      rw [hc] at hua
      exact Option.noConfusion hua
    obtain ⟨⟨rmin, rmax⟩, ⟨gmin, gmax⟩, bmin, bmax⟩ := rng
    obtain ⟨radj, gadj, badj⟩ := adj
    simp [generate_realistic_skin_rgb, hbr, hua, ht, hu]

end AuraSync
